import Mathlib

set_option maxRecDepth 16384

/-!
Verification of a small untyped lambda-calculus engine: a recursive-descent
parser producing an AST (`Term`), a capture-unsafe substitution function, a
single-step beta reducer with a fixed deterministic search order, and a
normalization driver that iterates the single step until no change.

The definitions below are a shallow embedding of the Python source
(`A_type.py`).  Variable names are single characters (the parser only ever
creates them by indexing into the input string), so `Var` carries a `Char`;
an abstraction's parameter is stored as its (single character) name.

The source parser walks one shared integer cursor over the space-stripped
input string.  It is embedded over `List Char`, each production returning
the parsed `Term` together with the not yet consumed suffix of the input
(the cursor's position).  The mutually recursive productions are made total
with a fuel argument; the distinguished error `"fuel"` marks fuel exhaustion
only and corresponds to no behaviour of the source (the top-level `parse`
passes fuel `4 * length + 8`, more than the recursion can consume, since
every production advances the cursor).
-/

/-- The AST node family (`Expr`/`Var`/`Lambda`/`App` in the source). -/
inductive Term where
  | Var : Char → Term
  | Lambda : Char → Term → Term
  | App : Term → Term → Term
deriving DecidableEq, Repr

/-- Source `substitute(expr, v, sub)`: substitute the variable named `v` with `sub`
in `expr`.  Mirrors the source exactly: a variable is replaced iff its name
equals `v`; an abstraction whose parameter equals `v` is returned unchanged
(no descent into the body); an application substitutes in both subterms.
(The source's final `TypeError` branch is unreachable: `Term` is closed.) -/
def substitute : Term → Char → Term → Term
  | Term.Var n, v, sub => if n = v then sub else Term.Var n
  | Term.Lambda p b, v, sub =>
      if p = v then Term.Lambda p b else Term.Lambda p (substitute b v sub)
  | Term.App f a, v, sub => Term.App (substitute f v sub) (substitute a v sub)

/-- Source `beta_reduce(expr)`: one beta-reduction step, returning the new term and
a `changed` flag.  Mirrors the source's order: a top-level redex is contracted
immediately; otherwise an application first tries its function subterm, then
its argument; an abstraction tries its body; anything else is unchanged. -/
def beta_reduce : Term → Term × Bool
  | Term.App (Term.Lambda v body) arg => (substitute body v arg, true)
  | Term.App f a =>
      let rf := beta_reduce f
      if rf.2 then (Term.App rf.1 a, true)
      else
        let ra := beta_reduce a
        if ra.2 then (Term.App f ra.1, true) else (Term.App f a, false)
  | Term.Lambda v b =>
      let rb := beta_reduce b
      if rb.2 then (Term.Lambda v rb.1, true) else (Term.Lambda v b, false)
  | Term.Var n => (Term.Var n, false)

/-- Source `full_beta_reduce(expr)`: repeatedly apply `beta_reduce` until `changed`
is false.  The source's `while` loop has no step bound; it is modelled with
explicit fuel: `none` means the loop has not finished within `fuel`
iterations, `some t` means the loop exits returning `t`. -/
def full_beta_reduce : Nat → Term → Option Term
  | 0, _ => none
  | fuel+1, t =>
      let r := beta_reduce t
      if r.2 then full_beta_reduce fuel r.1 else some r.1

/-- The term produced by `n` iterations of the single-step reducer
(the state of `full_beta_reduce`'s loop variable after `n` iterations). -/
def betaIter : Nat → Term → Term
  | 0, t => t
  | n+1, t => betaIter n (beta_reduce t).1

/-- A term contains a redex (an application whose function position is an
abstraction) somewhere inside it.  This is the spec's notion: a term is in
normal form iff it has no redex. -/
def hasRedex : Term → Bool
  | Term.App (Term.Lambda _ _) _ => true
  | Term.App f a => hasRedex f || hasRedex a
  | Term.Lambda _ b => hasRedex b
  | Term.Var _ => false

/-- Maximal codepoint ranges on which Python's `str.isalpha` is true: the
Unicode letters (categories Lu, Ll, Lt, Lm and Lo), tabulated over all of
Unicode (0x0 to 0x10FFFF) from the CPython runtime (Unicode 14.0). -/
def pyAlphaRanges : List (Nat × Nat) := [
  (0x41, 0x5A), (0x61, 0x7A), (0xAA, 0xAA), (0xB5, 0xB5),
  (0xBA, 0xBA), (0xC0, 0xD6), (0xD8, 0xF6), (0xF8, 0x2C1),
  (0x2C6, 0x2D1), (0x2E0, 0x2E4), (0x2EC, 0x2EC), (0x2EE, 0x2EE),
  (0x370, 0x374), (0x376, 0x377), (0x37A, 0x37D), (0x37F, 0x37F),
  (0x386, 0x386), (0x388, 0x38A), (0x38C, 0x38C), (0x38E, 0x3A1),
  (0x3A3, 0x3F5), (0x3F7, 0x481), (0x48A, 0x52F), (0x531, 0x556),
  (0x559, 0x559), (0x560, 0x588), (0x5D0, 0x5EA), (0x5EF, 0x5F2),
  (0x620, 0x64A), (0x66E, 0x66F), (0x671, 0x6D3), (0x6D5, 0x6D5),
  (0x6E5, 0x6E6), (0x6EE, 0x6EF), (0x6FA, 0x6FC), (0x6FF, 0x6FF),
  (0x710, 0x710), (0x712, 0x72F), (0x74D, 0x7A5), (0x7B1, 0x7B1),
  (0x7CA, 0x7EA), (0x7F4, 0x7F5), (0x7FA, 0x7FA), (0x800, 0x815),
  (0x81A, 0x81A), (0x824, 0x824), (0x828, 0x828), (0x840, 0x858),
  (0x860, 0x86A), (0x870, 0x887), (0x889, 0x88E), (0x8A0, 0x8C9),
  (0x904, 0x939), (0x93D, 0x93D), (0x950, 0x950), (0x958, 0x961),
  (0x971, 0x980), (0x985, 0x98C), (0x98F, 0x990), (0x993, 0x9A8),
  (0x9AA, 0x9B0), (0x9B2, 0x9B2), (0x9B6, 0x9B9), (0x9BD, 0x9BD),
  (0x9CE, 0x9CE), (0x9DC, 0x9DD), (0x9DF, 0x9E1), (0x9F0, 0x9F1),
  (0x9FC, 0x9FC), (0xA05, 0xA0A), (0xA0F, 0xA10), (0xA13, 0xA28),
  (0xA2A, 0xA30), (0xA32, 0xA33), (0xA35, 0xA36), (0xA38, 0xA39),
  (0xA59, 0xA5C), (0xA5E, 0xA5E), (0xA72, 0xA74), (0xA85, 0xA8D),
  (0xA8F, 0xA91), (0xA93, 0xAA8), (0xAAA, 0xAB0), (0xAB2, 0xAB3),
  (0xAB5, 0xAB9), (0xABD, 0xABD), (0xAD0, 0xAD0), (0xAE0, 0xAE1),
  (0xAF9, 0xAF9), (0xB05, 0xB0C), (0xB0F, 0xB10), (0xB13, 0xB28),
  (0xB2A, 0xB30), (0xB32, 0xB33), (0xB35, 0xB39), (0xB3D, 0xB3D),
  (0xB5C, 0xB5D), (0xB5F, 0xB61), (0xB71, 0xB71), (0xB83, 0xB83),
  (0xB85, 0xB8A), (0xB8E, 0xB90), (0xB92, 0xB95), (0xB99, 0xB9A),
  (0xB9C, 0xB9C), (0xB9E, 0xB9F), (0xBA3, 0xBA4), (0xBA8, 0xBAA),
  (0xBAE, 0xBB9), (0xBD0, 0xBD0), (0xC05, 0xC0C), (0xC0E, 0xC10),
  (0xC12, 0xC28), (0xC2A, 0xC39), (0xC3D, 0xC3D), (0xC58, 0xC5A),
  (0xC5D, 0xC5D), (0xC60, 0xC61), (0xC80, 0xC80), (0xC85, 0xC8C),
  (0xC8E, 0xC90), (0xC92, 0xCA8), (0xCAA, 0xCB3), (0xCB5, 0xCB9),
  (0xCBD, 0xCBD), (0xCDD, 0xCDE), (0xCE0, 0xCE1), (0xCF1, 0xCF2),
  (0xD04, 0xD0C), (0xD0E, 0xD10), (0xD12, 0xD3A), (0xD3D, 0xD3D),
  (0xD4E, 0xD4E), (0xD54, 0xD56), (0xD5F, 0xD61), (0xD7A, 0xD7F),
  (0xD85, 0xD96), (0xD9A, 0xDB1), (0xDB3, 0xDBB), (0xDBD, 0xDBD),
  (0xDC0, 0xDC6), (0xE01, 0xE30), (0xE32, 0xE33), (0xE40, 0xE46),
  (0xE81, 0xE82), (0xE84, 0xE84), (0xE86, 0xE8A), (0xE8C, 0xEA3),
  (0xEA5, 0xEA5), (0xEA7, 0xEB0), (0xEB2, 0xEB3), (0xEBD, 0xEBD),
  (0xEC0, 0xEC4), (0xEC6, 0xEC6), (0xEDC, 0xEDF), (0xF00, 0xF00),
  (0xF40, 0xF47), (0xF49, 0xF6C), (0xF88, 0xF8C), (0x1000, 0x102A),
  (0x103F, 0x103F), (0x1050, 0x1055), (0x105A, 0x105D), (0x1061, 0x1061),
  (0x1065, 0x1066), (0x106E, 0x1070), (0x1075, 0x1081), (0x108E, 0x108E),
  (0x10A0, 0x10C5), (0x10C7, 0x10C7), (0x10CD, 0x10CD), (0x10D0, 0x10FA),
  (0x10FC, 0x1248), (0x124A, 0x124D), (0x1250, 0x1256), (0x1258, 0x1258),
  (0x125A, 0x125D), (0x1260, 0x1288), (0x128A, 0x128D), (0x1290, 0x12B0),
  (0x12B2, 0x12B5), (0x12B8, 0x12BE), (0x12C0, 0x12C0), (0x12C2, 0x12C5),
  (0x12C8, 0x12D6), (0x12D8, 0x1310), (0x1312, 0x1315), (0x1318, 0x135A),
  (0x1380, 0x138F), (0x13A0, 0x13F5), (0x13F8, 0x13FD), (0x1401, 0x166C),
  (0x166F, 0x167F), (0x1681, 0x169A), (0x16A0, 0x16EA), (0x16F1, 0x16F8),
  (0x1700, 0x1711), (0x171F, 0x1731), (0x1740, 0x1751), (0x1760, 0x176C),
  (0x176E, 0x1770), (0x1780, 0x17B3), (0x17D7, 0x17D7), (0x17DC, 0x17DC),
  (0x1820, 0x1878), (0x1880, 0x1884), (0x1887, 0x18A8), (0x18AA, 0x18AA),
  (0x18B0, 0x18F5), (0x1900, 0x191E), (0x1950, 0x196D), (0x1970, 0x1974),
  (0x1980, 0x19AB), (0x19B0, 0x19C9), (0x1A00, 0x1A16), (0x1A20, 0x1A54),
  (0x1AA7, 0x1AA7), (0x1B05, 0x1B33), (0x1B45, 0x1B4C), (0x1B83, 0x1BA0),
  (0x1BAE, 0x1BAF), (0x1BBA, 0x1BE5), (0x1C00, 0x1C23), (0x1C4D, 0x1C4F),
  (0x1C5A, 0x1C7D), (0x1C80, 0x1C88), (0x1C90, 0x1CBA), (0x1CBD, 0x1CBF),
  (0x1CE9, 0x1CEC), (0x1CEE, 0x1CF3), (0x1CF5, 0x1CF6), (0x1CFA, 0x1CFA),
  (0x1D00, 0x1DBF), (0x1E00, 0x1F15), (0x1F18, 0x1F1D), (0x1F20, 0x1F45),
  (0x1F48, 0x1F4D), (0x1F50, 0x1F57), (0x1F59, 0x1F59), (0x1F5B, 0x1F5B),
  (0x1F5D, 0x1F5D), (0x1F5F, 0x1F7D), (0x1F80, 0x1FB4), (0x1FB6, 0x1FBC),
  (0x1FBE, 0x1FBE), (0x1FC2, 0x1FC4), (0x1FC6, 0x1FCC), (0x1FD0, 0x1FD3),
  (0x1FD6, 0x1FDB), (0x1FE0, 0x1FEC), (0x1FF2, 0x1FF4), (0x1FF6, 0x1FFC),
  (0x2071, 0x2071), (0x207F, 0x207F), (0x2090, 0x209C), (0x2102, 0x2102),
  (0x2107, 0x2107), (0x210A, 0x2113), (0x2115, 0x2115), (0x2119, 0x211D),
  (0x2124, 0x2124), (0x2126, 0x2126), (0x2128, 0x2128), (0x212A, 0x212D),
  (0x212F, 0x2139), (0x213C, 0x213F), (0x2145, 0x2149), (0x214E, 0x214E),
  (0x2183, 0x2184), (0x2C00, 0x2CE4), (0x2CEB, 0x2CEE), (0x2CF2, 0x2CF3),
  (0x2D00, 0x2D25), (0x2D27, 0x2D27), (0x2D2D, 0x2D2D), (0x2D30, 0x2D67),
  (0x2D6F, 0x2D6F), (0x2D80, 0x2D96), (0x2DA0, 0x2DA6), (0x2DA8, 0x2DAE),
  (0x2DB0, 0x2DB6), (0x2DB8, 0x2DBE), (0x2DC0, 0x2DC6), (0x2DC8, 0x2DCE),
  (0x2DD0, 0x2DD6), (0x2DD8, 0x2DDE), (0x2E2F, 0x2E2F), (0x3005, 0x3006),
  (0x3031, 0x3035), (0x303B, 0x303C), (0x3041, 0x3096), (0x309D, 0x309F),
  (0x30A1, 0x30FA), (0x30FC, 0x30FF), (0x3105, 0x312F), (0x3131, 0x318E),
  (0x31A0, 0x31BF), (0x31F0, 0x31FF), (0x3400, 0x4DBF), (0x4E00, 0xA48C),
  (0xA4D0, 0xA4FD), (0xA500, 0xA60C), (0xA610, 0xA61F), (0xA62A, 0xA62B),
  (0xA640, 0xA66E), (0xA67F, 0xA69D), (0xA6A0, 0xA6E5), (0xA717, 0xA71F),
  (0xA722, 0xA788), (0xA78B, 0xA7CA), (0xA7D0, 0xA7D1), (0xA7D3, 0xA7D3),
  (0xA7D5, 0xA7D9), (0xA7F2, 0xA801), (0xA803, 0xA805), (0xA807, 0xA80A),
  (0xA80C, 0xA822), (0xA840, 0xA873), (0xA882, 0xA8B3), (0xA8F2, 0xA8F7),
  (0xA8FB, 0xA8FB), (0xA8FD, 0xA8FE), (0xA90A, 0xA925), (0xA930, 0xA946),
  (0xA960, 0xA97C), (0xA984, 0xA9B2), (0xA9CF, 0xA9CF), (0xA9E0, 0xA9E4),
  (0xA9E6, 0xA9EF), (0xA9FA, 0xA9FE), (0xAA00, 0xAA28), (0xAA40, 0xAA42),
  (0xAA44, 0xAA4B), (0xAA60, 0xAA76), (0xAA7A, 0xAA7A), (0xAA7E, 0xAAAF),
  (0xAAB1, 0xAAB1), (0xAAB5, 0xAAB6), (0xAAB9, 0xAABD), (0xAAC0, 0xAAC0),
  (0xAAC2, 0xAAC2), (0xAADB, 0xAADD), (0xAAE0, 0xAAEA), (0xAAF2, 0xAAF4),
  (0xAB01, 0xAB06), (0xAB09, 0xAB0E), (0xAB11, 0xAB16), (0xAB20, 0xAB26),
  (0xAB28, 0xAB2E), (0xAB30, 0xAB5A), (0xAB5C, 0xAB69), (0xAB70, 0xABE2),
  (0xAC00, 0xD7A3), (0xD7B0, 0xD7C6), (0xD7CB, 0xD7FB), (0xF900, 0xFA6D),
  (0xFA70, 0xFAD9), (0xFB00, 0xFB06), (0xFB13, 0xFB17), (0xFB1D, 0xFB1D),
  (0xFB1F, 0xFB28), (0xFB2A, 0xFB36), (0xFB38, 0xFB3C), (0xFB3E, 0xFB3E),
  (0xFB40, 0xFB41), (0xFB43, 0xFB44), (0xFB46, 0xFBB1), (0xFBD3, 0xFD3D),
  (0xFD50, 0xFD8F), (0xFD92, 0xFDC7), (0xFDF0, 0xFDFB), (0xFE70, 0xFE74),
  (0xFE76, 0xFEFC), (0xFF21, 0xFF3A), (0xFF41, 0xFF5A), (0xFF66, 0xFFBE),
  (0xFFC2, 0xFFC7), (0xFFCA, 0xFFCF), (0xFFD2, 0xFFD7), (0xFFDA, 0xFFDC),
  (0x10000, 0x1000B), (0x1000D, 0x10026), (0x10028, 0x1003A), (0x1003C, 0x1003D),
  (0x1003F, 0x1004D), (0x10050, 0x1005D), (0x10080, 0x100FA), (0x10280, 0x1029C),
  (0x102A0, 0x102D0), (0x10300, 0x1031F), (0x1032D, 0x10340), (0x10342, 0x10349),
  (0x10350, 0x10375), (0x10380, 0x1039D), (0x103A0, 0x103C3), (0x103C8, 0x103CF),
  (0x10400, 0x1049D), (0x104B0, 0x104D3), (0x104D8, 0x104FB), (0x10500, 0x10527),
  (0x10530, 0x10563), (0x10570, 0x1057A), (0x1057C, 0x1058A), (0x1058C, 0x10592),
  (0x10594, 0x10595), (0x10597, 0x105A1), (0x105A3, 0x105B1), (0x105B3, 0x105B9),
  (0x105BB, 0x105BC), (0x10600, 0x10736), (0x10740, 0x10755), (0x10760, 0x10767),
  (0x10780, 0x10785), (0x10787, 0x107B0), (0x107B2, 0x107BA), (0x10800, 0x10805),
  (0x10808, 0x10808), (0x1080A, 0x10835), (0x10837, 0x10838), (0x1083C, 0x1083C),
  (0x1083F, 0x10855), (0x10860, 0x10876), (0x10880, 0x1089E), (0x108E0, 0x108F2),
  (0x108F4, 0x108F5), (0x10900, 0x10915), (0x10920, 0x10939), (0x10980, 0x109B7),
  (0x109BE, 0x109BF), (0x10A00, 0x10A00), (0x10A10, 0x10A13), (0x10A15, 0x10A17),
  (0x10A19, 0x10A35), (0x10A60, 0x10A7C), (0x10A80, 0x10A9C), (0x10AC0, 0x10AC7),
  (0x10AC9, 0x10AE4), (0x10B00, 0x10B35), (0x10B40, 0x10B55), (0x10B60, 0x10B72),
  (0x10B80, 0x10B91), (0x10C00, 0x10C48), (0x10C80, 0x10CB2), (0x10CC0, 0x10CF2),
  (0x10D00, 0x10D23), (0x10E80, 0x10EA9), (0x10EB0, 0x10EB1), (0x10F00, 0x10F1C),
  (0x10F27, 0x10F27), (0x10F30, 0x10F45), (0x10F70, 0x10F81), (0x10FB0, 0x10FC4),
  (0x10FE0, 0x10FF6), (0x11003, 0x11037), (0x11071, 0x11072), (0x11075, 0x11075),
  (0x11083, 0x110AF), (0x110D0, 0x110E8), (0x11103, 0x11126), (0x11144, 0x11144),
  (0x11147, 0x11147), (0x11150, 0x11172), (0x11176, 0x11176), (0x11183, 0x111B2),
  (0x111C1, 0x111C4), (0x111DA, 0x111DA), (0x111DC, 0x111DC), (0x11200, 0x11211),
  (0x11213, 0x1122B), (0x11280, 0x11286), (0x11288, 0x11288), (0x1128A, 0x1128D),
  (0x1128F, 0x1129D), (0x1129F, 0x112A8), (0x112B0, 0x112DE), (0x11305, 0x1130C),
  (0x1130F, 0x11310), (0x11313, 0x11328), (0x1132A, 0x11330), (0x11332, 0x11333),
  (0x11335, 0x11339), (0x1133D, 0x1133D), (0x11350, 0x11350), (0x1135D, 0x11361),
  (0x11400, 0x11434), (0x11447, 0x1144A), (0x1145F, 0x11461), (0x11480, 0x114AF),
  (0x114C4, 0x114C5), (0x114C7, 0x114C7), (0x11580, 0x115AE), (0x115D8, 0x115DB),
  (0x11600, 0x1162F), (0x11644, 0x11644), (0x11680, 0x116AA), (0x116B8, 0x116B8),
  (0x11700, 0x1171A), (0x11740, 0x11746), (0x11800, 0x1182B), (0x118A0, 0x118DF),
  (0x118FF, 0x11906), (0x11909, 0x11909), (0x1190C, 0x11913), (0x11915, 0x11916),
  (0x11918, 0x1192F), (0x1193F, 0x1193F), (0x11941, 0x11941), (0x119A0, 0x119A7),
  (0x119AA, 0x119D0), (0x119E1, 0x119E1), (0x119E3, 0x119E3), (0x11A00, 0x11A00),
  (0x11A0B, 0x11A32), (0x11A3A, 0x11A3A), (0x11A50, 0x11A50), (0x11A5C, 0x11A89),
  (0x11A9D, 0x11A9D), (0x11AB0, 0x11AF8), (0x11C00, 0x11C08), (0x11C0A, 0x11C2E),
  (0x11C40, 0x11C40), (0x11C72, 0x11C8F), (0x11D00, 0x11D06), (0x11D08, 0x11D09),
  (0x11D0B, 0x11D30), (0x11D46, 0x11D46), (0x11D60, 0x11D65), (0x11D67, 0x11D68),
  (0x11D6A, 0x11D89), (0x11D98, 0x11D98), (0x11EE0, 0x11EF2), (0x11FB0, 0x11FB0),
  (0x12000, 0x12399), (0x12480, 0x12543), (0x12F90, 0x12FF0), (0x13000, 0x1342E),
  (0x14400, 0x14646), (0x16800, 0x16A38), (0x16A40, 0x16A5E), (0x16A70, 0x16ABE),
  (0x16AD0, 0x16AED), (0x16B00, 0x16B2F), (0x16B40, 0x16B43), (0x16B63, 0x16B77),
  (0x16B7D, 0x16B8F), (0x16E40, 0x16E7F), (0x16F00, 0x16F4A), (0x16F50, 0x16F50),
  (0x16F93, 0x16F9F), (0x16FE0, 0x16FE1), (0x16FE3, 0x16FE3), (0x17000, 0x187F7),
  (0x18800, 0x18CD5), (0x18D00, 0x18D08), (0x1AFF0, 0x1AFF3), (0x1AFF5, 0x1AFFB),
  (0x1AFFD, 0x1AFFE), (0x1B000, 0x1B122), (0x1B150, 0x1B152), (0x1B164, 0x1B167),
  (0x1B170, 0x1B2FB), (0x1BC00, 0x1BC6A), (0x1BC70, 0x1BC7C), (0x1BC80, 0x1BC88),
  (0x1BC90, 0x1BC99), (0x1D400, 0x1D454), (0x1D456, 0x1D49C), (0x1D49E, 0x1D49F),
  (0x1D4A2, 0x1D4A2), (0x1D4A5, 0x1D4A6), (0x1D4A9, 0x1D4AC), (0x1D4AE, 0x1D4B9),
  (0x1D4BB, 0x1D4BB), (0x1D4BD, 0x1D4C3), (0x1D4C5, 0x1D505), (0x1D507, 0x1D50A),
  (0x1D50D, 0x1D514), (0x1D516, 0x1D51C), (0x1D51E, 0x1D539), (0x1D53B, 0x1D53E),
  (0x1D540, 0x1D544), (0x1D546, 0x1D546), (0x1D54A, 0x1D550), (0x1D552, 0x1D6A5),
  (0x1D6A8, 0x1D6C0), (0x1D6C2, 0x1D6DA), (0x1D6DC, 0x1D6FA), (0x1D6FC, 0x1D714),
  (0x1D716, 0x1D734), (0x1D736, 0x1D74E), (0x1D750, 0x1D76E), (0x1D770, 0x1D788),
  (0x1D78A, 0x1D7A8), (0x1D7AA, 0x1D7C2), (0x1D7C4, 0x1D7CB), (0x1DF00, 0x1DF1E),
  (0x1E100, 0x1E12C), (0x1E137, 0x1E13D), (0x1E14E, 0x1E14E), (0x1E290, 0x1E2AD),
  (0x1E2C0, 0x1E2EB), (0x1E7E0, 0x1E7E6), (0x1E7E8, 0x1E7EB), (0x1E7ED, 0x1E7EE),
  (0x1E7F0, 0x1E7FE), (0x1E800, 0x1E8C4), (0x1E900, 0x1E943), (0x1E94B, 0x1E94B),
  (0x1EE00, 0x1EE03), (0x1EE05, 0x1EE1F), (0x1EE21, 0x1EE22), (0x1EE24, 0x1EE24),
  (0x1EE27, 0x1EE27), (0x1EE29, 0x1EE32), (0x1EE34, 0x1EE37), (0x1EE39, 0x1EE39),
  (0x1EE3B, 0x1EE3B), (0x1EE42, 0x1EE42), (0x1EE47, 0x1EE47), (0x1EE49, 0x1EE49),
  (0x1EE4B, 0x1EE4B), (0x1EE4D, 0x1EE4F), (0x1EE51, 0x1EE52), (0x1EE54, 0x1EE54),
  (0x1EE57, 0x1EE57), (0x1EE59, 0x1EE59), (0x1EE5B, 0x1EE5B), (0x1EE5D, 0x1EE5D),
  (0x1EE5F, 0x1EE5F), (0x1EE61, 0x1EE62), (0x1EE64, 0x1EE64), (0x1EE67, 0x1EE6A),
  (0x1EE6C, 0x1EE72), (0x1EE74, 0x1EE77), (0x1EE79, 0x1EE7C), (0x1EE7E, 0x1EE7E),
  (0x1EE80, 0x1EE89), (0x1EE8B, 0x1EE9B), (0x1EEA1, 0x1EEA3), (0x1EEA5, 0x1EEA9),
  (0x1EEAB, 0x1EEBB), (0x20000, 0x2A6DF), (0x2A700, 0x2B738), (0x2B740, 0x2B81D),
  (0x2B820, 0x2CEA1), (0x2CEB0, 0x2EBE0), (0x2F800, 0x2FA1D), (0x30000, 0x3134A)]

/-- Python's `str.isalpha` on a single character: true exactly for the
Unicode letters, decided by the complete range table `pyAlphaRanges`. -/
def pyIsAlpha (c : Char) : Bool :=
  pyAlphaRanges.any (fun r => decide (r.1 ≤ c.toNat ∧ c.toNat ≤ r.2))

/-- The two accepted spellings of the lambda marker: `'λ'` and `'\'`. -/
def isLambdaSym (c : Char) : Bool := c == 'λ' || c == '\\'

/-- Model of `expr_str.replace(" ", "")`: the source removes space characters
(`' '`, U+0020) — and only those — before parsing. -/
def stripSpaces (s : List Char) : List Char := s.filter (fun c => c != ' ')

mutual

/-- Production `parse_expr`: a lambda abstraction if the next character is a lambda
marker, else an application chain. -/
def parse_expr : Nat → List Char → Except String (Term × List Char)
  | 0, _ => Except.error "fuel"
  | fuel+1, s =>
      match s with
      | c :: _ => if isLambdaSym c then parse_lambda fuel s else parse_app fuel s
      | [] => parse_app fuel s

/-- Production `parse_lambda`: lambda marker, single alphabetic variable, dot, body. -/
def parse_lambda : Nat → List Char → Except String (Term × List Char)
  | 0, _ => Except.error "fuel"
  | fuel+1, s =>
      match s with
      | [] => Except.error "Expected lambda"
      | c :: rest =>
          if isLambdaSym c then
            match rest with
            | [] => Except.error "Expected a variable after lambda"
            | v :: rest2 =>
                if pyIsAlpha v then
                  match rest2 with
                  | '.' :: rest3 =>
                      match parse_expr fuel rest3 with
                      | Except.error e => Except.error e
                      | Except.ok (body, rest4) => Except.ok (Term.Lambda v body, rest4)
                  | _ => Except.error "Expected dot after lambda variable"
                else Except.error "Expected a variable after lambda"
          else Except.error "Expected lambda"

/-- Production `parse_app`: a sequence of factors folded left-associatively into
nested applications (the source's `while` loop is `parse_app_loop`). -/
def parse_app : Nat → List Char → Except String (Term × List Char)
  | 0, _ => Except.error "fuel"
  | fuel+1, s =>
      match parse_factor fuel s with
      | Except.error e => Except.error e
      | Except.ok (left, s1) => parse_app_loop fuel left s1

/-- The `while pos < len(expr_str) and expr_str[pos] not in (")", ".")`
loop of `parse_app`: keep absorbing factors into `App` nodes. -/
def parse_app_loop : Nat → Term → List Char → Except String (Term × List Char)
  | 0, _, _ => Except.error "fuel"
  | fuel+1, left, s =>
      match s with
      | [] => Except.ok (left, [])
      | c :: cs =>
          if c == ')' || c == '.' then Except.ok (left, c :: cs)
          else
            match parse_factor fuel (c :: cs) with
            | Except.error e => Except.error e
            | Except.ok (right, s1) => parse_app_loop fuel (Term.App left right) s1

/-- Production `parse_factor`: a parenthesized expression, a lambda, or a variable. -/
def parse_factor : Nat → List Char → Except String (Term × List Char)
  | 0, _ => Except.error "fuel"
  | fuel+1, s =>
      match s with
      | [] => Except.error "Unexpected end of input"
      | c :: rest =>
          if c == '(' then
            match parse_expr fuel rest with
            | Except.error e => Except.error e
            | Except.ok (exp, s1) =>
                match s1 with
                | ')' :: s2 => Except.ok (exp, s2)
                | _ => Except.error "Expected ')'"
          else if isLambdaSym c then parse_lambda fuel (c :: rest)
          else if pyIsAlpha c then Except.ok (Term.Var c, rest)
          else Except.error ("Unexpected character: " ++ String.mk [c])

end

deriving instance DecidableEq for Except

/-- Top-level `parse(expr_str)`: strip spaces, parse one expression, and require that
it consumed the entire input. -/
def parse (str : String) : Except String Term :=
  let s := stripSpaces str.toList
  match parse_expr (4 * s.length + 8) s with
  | Except.error e => Except.error e
  | Except.ok (t, rest) =>
      match rest with
      | [] => Except.ok t
      | _ :: _ => Except.error "Extra characters after valid expression"

/-- The `__repr__` surface form as a character list: a variable is its bare
name, an abstraction is `(λ<param>.<body>)`, an application is
`(<function> <argument>)`. -/
def renderL : Term → List Char
  | Term.Var n => [n]
  | Term.Lambda p b => '(' :: 'λ' :: p :: '.' :: (renderL b ++ [')'])
  | Term.App f a => '(' :: (renderL f ++ ' ' :: (renderL a ++ [')']))

/-- Rendering `__repr__`: the rendered string of a term. -/
def render (t : Term) : String := String.mk (renderL t)

/-- The rendered form with the one space of the `App` case already removed:
what `parse` sees after stripping when fed `render t` (provided no variable
of `t` is named `' '`). -/
def renderS : Term → List Char
  | Term.Var n => [n]
  | Term.Lambda p b => '(' :: 'λ' :: p :: '.' :: (renderS b ++ [')'])
  | Term.App f a => '(' :: (renderS f ++ (renderS a ++ [')']))

/-- The terms the parser can produce: every variable name is a single
alphabetic character, and a variable in a non-parameter position is not a
lambda marker (the parser reads a lambda marker as the start of an
abstraction wherever a factor is expected, so it can never make it a
`Var` node; a *parameter* may be `'λ'`, since `'λ'.isalpha()` holds). -/
def Producible : Term → Bool
  | Term.Var n => pyIsAlpha n && !(isLambdaSym n)
  | Term.Lambda p b => pyIsAlpha p && Producible b
  | Term.App f a => Producible f && Producible a

/-- The application-chain loop stops exactly on end of input, `')'`, `'.'`. -/
def stops : List Char → Bool
  | [] => true
  | c :: _ => c == ')' || c == '.'

/-- Node count of a term, used only to bound the parser fuel. -/
def size : Term → Nat
  | Term.Var _ => 1
  | Term.Lambda _ b => 1 + size b
  | Term.App f a => 1 + size f + size a

/-- Term `λx.(x x)`, the self-application combinator. -/
def selfApply : Term := Term.Lambda 'x' (Term.App (Term.Var 'x') (Term.Var 'x'))

/-- Term `(λx.(x x)) (λx.(x x))`, the classic divergent term. -/
def omegaTerm : Term := Term.App selfApply selfApply

section ReducerLemmas

lemma beta_reduce_app_redex (v : Char) (body arg : Term) :
    beta_reduce (Term.App (Term.Lambda v body) arg) = (substitute body v arg, true) := rfl

lemma beta_reduce_app_var (n : Char) (a : Term) :
    beta_reduce (Term.App (Term.Var n) a) =
      (let ra := beta_reduce a
       if ra.2 then (Term.App (Term.Var n) ra.1, true)
       else (Term.App (Term.Var n) a, false)) := by
  simp [beta_reduce]

lemma beta_reduce_app_app (g h a : Term) :
    beta_reduce (Term.App (Term.App g h) a) =
      (let rf := beta_reduce (Term.App g h)
       if rf.2 then (Term.App rf.1 a, true)
       else
         let ra := beta_reduce a
         if ra.2 then (Term.App (Term.App g h) ra.1, true)
         else (Term.App (Term.App g h) a, false)) := by
  simp [beta_reduce]

lemma beta_reduce_lam (v : Char) (b : Term) :
    beta_reduce (Term.Lambda v b) =
      (let rb := beta_reduce b
       if rb.2 then (Term.Lambda v rb.1, true) else (Term.Lambda v b, false)) := rfl

/-- Flag `changed = false` comes back exactly on redex-free terms. -/
lemma beta_reduce_snd_eq_hasRedex : ∀ t : Term, (beta_reduce t).2 = hasRedex t
  | Term.Var _ => rfl
  | Term.Lambda v b => by
      rw [beta_reduce_lam]
      simp only [hasRedex]
      rw [← beta_reduce_snd_eq_hasRedex b]
      by_cases h : (beta_reduce b).2 <;> simp [h]
  | Term.App (Term.Lambda v body) arg => by
      rw [beta_reduce_app_redex]; rfl
  | Term.App (Term.Var n) a => by
      rw [beta_reduce_app_var]
      simp only [hasRedex]
      rw [← beta_reduce_snd_eq_hasRedex a]
      by_cases h : (beta_reduce a).2 <;> simp [h, beta_reduce]
  | Term.App (Term.App g h) a => by
      rw [beta_reduce_app_app]
      simp only [hasRedex]
      rw [← beta_reduce_snd_eq_hasRedex (Term.App g h), ← beta_reduce_snd_eq_hasRedex a]
      by_cases h1 : (beta_reduce (Term.App g h)).2 <;>
        by_cases h2 : (beta_reduce a).2 <;> simp [h1, h2]

/-- When nothing changed, the returned term is the input itself. -/
lemma beta_reduce_unchanged : ∀ t : Term, (beta_reduce t).2 = false → (beta_reduce t).1 = t
  | Term.Var _, _ => rfl
  | Term.Lambda v b, h => by
      rw [beta_reduce_lam] at h ⊢
      by_cases hb : (beta_reduce b).2 <;> simp [hb] at h ⊢
  | Term.App (Term.Lambda v body) arg, h => by
      rw [beta_reduce_app_redex] at h; simp at h
  | Term.App (Term.Var n) a, h => by
      rw [beta_reduce_app_var] at h ⊢
      by_cases ha : (beta_reduce a).2 <;> simp [ha] at h ⊢
  | Term.App (Term.App g h') a, h => by
      rw [beta_reduce_app_app] at h ⊢
      by_cases h1 : (beta_reduce (Term.App g h')).2 <;>
        by_cases h2 : (beta_reduce a).2 <;> simp [h1, h2] at h ⊢

/-- One step on the divergent term reproduces it. -/
lemma beta_reduce_omegaTerm : beta_reduce omegaTerm = (omegaTerm, true) := by decide

lemma betaIter_omegaTerm : ∀ n : Nat, betaIter n omegaTerm = omegaTerm
  | 0 => rfl
  | n+1 => by
      show betaIter n (beta_reduce omegaTerm).1 = omegaTerm
      rw [beta_reduce_omegaTerm]
      exact betaIter_omegaTerm n

end ReducerLemmas

/-- C1: `beta_reduce` follows exactly the deterministic search order:
a top-level redex is contracted immediately; otherwise, for an application,
the function subterm is tried first and, on change, returned with the
original argument; only if the function did not change is the argument
tried, returned with the original function. -/
theorem C1_beta_reduce_search_order :
    (∀ (v : Char) (body arg : Term),
       beta_reduce (Term.App (Term.Lambda v body) arg) = (substitute body v arg, true)) ∧
    (∀ (f a f' : Term), (∀ (v : Char) (b : Term), f ≠ Term.Lambda v b) →
       beta_reduce f = (f', true) →
       beta_reduce (Term.App f a) = (Term.App f' a, true)) ∧
    (∀ (f a f₀ a' : Term), (∀ (v : Char) (b : Term), f ≠ Term.Lambda v b) →
       beta_reduce f = (f₀, false) → beta_reduce a = (a', true) →
       beta_reduce (Term.App f a) = (Term.App f a', true)) := by
  refine ⟨fun v body arg => rfl, ?_, ?_⟩
  · intro f a f' hnl hf
    cases f with
    | Var n => simp [beta_reduce] at hf
    | Lambda v b => exact absurd rfl (hnl v b)
    | App g h => rw [beta_reduce_app_app]; simp [hf]
  · intro f a f₀ a' hnl hf ha
    cases f with
    | Var n => rw [beta_reduce_app_var]; simp [ha]
    | Lambda v b => exact absurd rfl (hnl v b)
    | App g h => rw [beta_reduce_app_app]; simp [hf, ha]

theorem C1_witness :
    beta_reduce (Term.App (Term.App (Term.Lambda 'x' (Term.Var 'x')) (Term.Var 'y'))
        (Term.Var 'z')) =
      (Term.App (Term.Var 'y') (Term.Var 'z'), true) :=
  C1_beta_reduce_search_order.2.1
    (Term.App (Term.Lambda 'x' (Term.Var 'x')) (Term.Var 'y')) (Term.Var 'z') (Term.Var 'y')
    (fun v b h => Term.noConfusion h) (by decide)

/-- C4: `beta_reduce` reports `changed = false` iff the input has no
redex (is in normal form), and in that case the returned term is the input
unchanged. -/
theorem C4_beta_reduce_normal_form (t : Term) :
    ((beta_reduce t).2 = false ↔ hasRedex t = false) ∧
    ((beta_reduce t).2 = false → (beta_reduce t).1 = t) :=
  ⟨by rw [beta_reduce_snd_eq_hasRedex], beta_reduce_unchanged t⟩

theorem C4_witness :
    ((beta_reduce (Term.Lambda 'x' (Term.Var 'x'))).2 = false ↔
       hasRedex (Term.Lambda 'x' (Term.Var 'x')) = false) ∧
    ((beta_reduce (Term.Lambda 'x' (Term.Var 'x'))).2 = false →
       (beta_reduce (Term.Lambda 'x' (Term.Var 'x'))).1 = Term.Lambda 'x' (Term.Var 'x')) :=
  C4_beta_reduce_normal_form (Term.Lambda 'x' (Term.Var 'x'))

/-- C5: Shadowing: substituting for `v` in an abstraction whose own
parameter is `v` returns the abstraction unchanged for every replacement. -/
theorem C5_substitute_shadowing (v : Char) (body anything : Term) :
    substitute (Term.Lambda v body) v anything = Term.Lambda v body := by
  simp [substitute]

/-- C6: Substituting a variable for itself is a no-op. -/
theorem C6_substitute_identity : ∀ (t : Term) (v : Char), substitute t v (Term.Var v) = t
  | Term.Var n, v => by
      by_cases h : n = v <;> simp [substitute, h]
  | Term.Lambda p b, v => by
      by_cases h : p = v <;> simp [substitute, h, C6_substitute_identity b v]
  | Term.App f a, v => by
      simp [substitute, C6_substitute_identity f v, C6_substitute_identity a v]

/-- C3 counterexample: `parse` does *not* behave the same on an input
and on that input with all whitespace removed: a tab is not stripped and is
rejected as an unexpected character, while the tab-free input parses. -/
theorem C3_counterexample :
    parse "x\ty" = Except.error ("Unexpected character: " ++ String.mk ['\t']) ∧
    parse "xy" = Except.ok (Term.App (Term.Var 'x') (Term.Var 'y')) ∧
    parse "x\ty" ≠ parse "xy" :=
  ⟨by decide, by decide, by decide⟩

/-- C3 amended: `parse` strips only space characters (`' '`), not all
whitespace: for every input string `s`, `parse s` returns the same result as
`parse` applied to `s` with all of its *space* characters removed. -/
theorem C3_strip_spaces_only (s : String) :
    parse s = parse (String.mk (stripSpaces s.toList)) := by
  unfold parse
  have h : (String.mk (stripSpaces s.toList)).toList = stripSpaces s.toList := rfl
  rw [h]
  have h2 : stripSpaces (stripSpaces s.toList) = stripSpaces s.toList := by
    simp [stripSpaces, List.filter_filter]
  rw [h2]

/-- C9: The self-application loop: `parse` yields `omegaTerm` from the
spec's input, every iterate of the single-step reducer still reports
`changed = true`, and the normalization loop finds no fixed point within any
number of iterations (`full_beta_reduce` returns `none` for every fuel). -/
theorem C9_omega_never_normalizes :
    parse "(λx.(xx))(λx.(xx))" = Except.ok omegaTerm ∧
    (∀ n : Nat, (beta_reduce (betaIter n omegaTerm)).2 = true) ∧
    (∀ fuel : Nat, full_beta_reduce fuel omegaTerm = none) := by
  refine ⟨by decide, ?_, ?_⟩
  · intro n
    rw [betaIter_omegaTerm, beta_reduce_omegaTerm]
  · intro fuel
    induction fuel with
    | zero => rfl
    | succ n ih =>
        show (let r := beta_reduce omegaTerm
              if r.2 then full_beta_reduce n r.1 else some r.1) = none
        rw [beta_reduce_omegaTerm]
        exact ih

/-- C10: A `'.'` or `')'` after at least one parsed factor silently ends
the application chain (no error); hence an input that is a complete
expression followed by `'.'`, such as `"x.y"`, fails with the extra
characters error, not with the unexpected character error. -/
theorem C10_dot_ends_chain :
    (∀ (fuel : Nat) (left : Term) (c : Char) (cs : List Char), c = ')' ∨ c = '.' →
       parse_app_loop (fuel+1) left (c :: cs) = Except.ok (left, c :: cs)) ∧
    parse "x.y" = Except.error "Extra characters after valid expression" := by
  constructor
  · intro fuel left c cs h
    rcases h with h | h <;> subst h <;> simp [parse_app_loop]
  · decide

theorem C10_witness :
    parse_app_loop 1 (Term.Var 'x') ('.' :: ['y']) = Except.ok (Term.Var 'x', '.' :: ['y']) :=
  C10_dot_ends_chain.1 0 (Term.Var 'x') '.' ['y'] (Or.inr rfl)

/-- Unfolding of `parse` with its local `let` reduced. -/
lemma parse_def (str : String) :
    parse str =
      match parse_expr (4 * (stripSpaces str.toList).length + 8) (stripSpaces str.toList) with
      | Except.error e => Except.error e
      | Except.ok (t, rest) =>
          match rest with
          | [] => Except.ok t
          | _ :: _ => Except.error "Extra characters after valid expression" := rfl

/-- An alphabetic character is none of the parser's punctuation characters
(everything relevant is below the first letter range). -/
lemma pyIsAlpha_ne_special (c : Char) (h : pyIsAlpha c = true) :
    c ≠ '(' ∧ c ≠ ')' ∧ c ≠ '.' ∧ c ≠ ' ' := by
  refine ⟨?_, ?_, ?_, ?_⟩ <;> rintro rfl <;> exact absurd h (by decide)

/-- The application-chain loop returns its accumulator untouched on end of
input, `')'`, or `'.'`. -/
lemma parse_app_loop_stops (fuel : Nat) (left : Term) (rest : List Char)
    (h : stops rest = true) :
    parse_app_loop (fuel+1) left rest = Except.ok (left, rest) := by
  cases rest with
  | nil => simp [parse_app_loop]
  | cons c cs =>
      simp only [stops] at h
      simp [parse_app_loop, h]

/-- The rendered form of a producible term starts with a character that is
neither a lambda marker nor a chain stopper. -/
lemma renderS_head (t : Term) (h : Producible t = true) :
    ∃ c cs, renderS t = c :: cs ∧ isLambdaSym c = false ∧ (c == ')' || c == '.') = false := by
  cases t with
  | Var n =>
      simp only [Producible, Bool.and_eq_true, Bool.not_eq_true'] at h
      obtain ⟨h1, h2⟩ := h
      obtain ⟨-, hnp, hnd, -⟩ := pyIsAlpha_ne_special n h1
      exact ⟨n, [], rfl, h2, by simp [hnp, hnd]⟩
  | Lambda p b => exact ⟨'(', _, rfl, by decide, by decide⟩
  | App f a => exact ⟨'(', _, rfl, by decide, by decide⟩

/-- Fuel bound: the top-level fuel computed from the rendered length covers
the recursion depth needed to reparse the term. -/
lemma size_bound : ∀ t : Term, 6 * size t ≤ 4 * (renderS t).length + 2
  | Term.Var _ => by simp [size, renderS]
  | Term.Lambda p b => by
      have hb := size_bound b
      simp only [size, renderS, List.length_cons, List.length_append, List.length_singleton]
      omega
  | Term.App f a => by
      have hf := size_bound f
      have ha := size_bound a
      simp only [size, renderS, List.length_cons, List.length_append, List.length_singleton]
      omega

/-- Stripping spaces from the rendered string of a producible term removes
exactly the one space of each application node. -/
lemma stripSpaces_renderL : ∀ t : Term, Producible t = true →
    stripSpaces (renderL t) = renderS t
  | Term.Var n, h => by
      simp only [Producible, Bool.and_eq_true, Bool.not_eq_true'] at h
      obtain ⟨-, -, -, hsp⟩ := pyIsAlpha_ne_special n h.1
      simp [stripSpaces, renderL, renderS, hsp]
  | Term.Lambda p b, h => by
      simp only [Producible, Bool.and_eq_true] at h
      obtain ⟨-, -, -, hsp⟩ := pyIsAlpha_ne_special p h.1
      have hb := stripSpaces_renderL b h.2
      simp only [stripSpaces, renderL, renderS, List.filter_cons, List.filter_append] at hb ⊢
      simp [hsp, hb]
  | Term.App f a, h => by
      simp only [Producible, Bool.and_eq_true] at h
      have hf := stripSpaces_renderL f h.1
      have ha := stripSpaces_renderL a h.2
      simp only [stripSpaces, renderL, renderS, List.filter_cons, List.filter_append] at hf ha ⊢
      simp [hf, ha]

/-- A successful `parse` means the top-level expression consumed the entire
stripped input. -/
lemma parse_ok_parse_expr (s : String) (t : Term) (h : parse s = Except.ok t) :
    parse_expr (4 * (stripSpaces s.toList).length + 8) (stripSpaces s.toList) =
      Except.ok (t, []) := by
  rw [parse_def] at h
  cases hp : parse_expr (4 * (stripSpaces s.toList).length + 8) (stripSpaces s.toList) with
  | error e => rw [hp] at h; simp at h
  | ok r =>
      obtain ⟨t', rest⟩ := r
      rw [hp] at h
      cases rest with
      | nil => simp at h; simp [h]
      | cons c cs => simp at h

lemma size_pos (t : Term) : 1 ≤ size t := by
  cases t <;> simp only [size] <;> omega

/-- A term whose rendered form reparses as a factor also reparses as a full
expression, provided the following input starts with a chain stopper. -/
lemma expr_from_factor (t : Term) (hP : Producible t = true)
    (hfac : ∀ (rest : List Char) (fuel : Nat), 6 * size t ≤ fuel →
       parse_factor fuel (renderS t ++ rest) = Except.ok (t, rest)) :
    ∀ (rest : List Char) (fuel : Nat), stops rest = true → 6 * size t + 2 ≤ fuel →
       parse_expr fuel (renderS t ++ rest) = Except.ok (t, rest) := by
  intro rest fuel hstop hfuel
  obtain ⟨c, cs, hr, hlam, -⟩ := renderS_head t hP
  have hsz := size_pos t
  obtain ⟨g1, rfl⟩ : ∃ g1, fuel = g1 + 1 + 2 := ⟨fuel - 3, by omega⟩
  have hlist : renderS t ++ rest = c :: (cs ++ rest) := by rw [hr]; rfl
  rw [hlist]
  simp only [parse_expr, hlam, Bool.false_eq_true, if_false]
  rw [← hlist]
  simp only [parse_app]
  rw [hfac rest (g1 + 1) (by omega)]
  exact parse_app_loop_stops g1 t rest hstop

/-- Core of the round trip: the space-free rendered form of a producible
term, followed by anything, reparses as a factor to exactly that term with
the trailing input untouched. -/
lemma parse_factor_renderS : ∀ t : Term, Producible t = true →
    ∀ (rest : List Char) (fuel : Nat), 6 * size t ≤ fuel →
    parse_factor fuel (renderS t ++ rest) = Except.ok (t, rest)
  | Term.Var n, h, rest, fuel, hfuel => by
      simp only [Producible, Bool.and_eq_true, Bool.not_eq_true'] at h
      obtain ⟨h1, h2⟩ := h
      obtain ⟨hop, -, -, -⟩ := pyIsAlpha_ne_special n h1
      simp only [size] at hfuel
      obtain ⟨f, rfl⟩ : ∃ f, fuel = f + 1 := ⟨fuel - 1, by omega⟩
      have hbeq : (n == '(') = false := by simp [hop]
      simp only [renderS, List.cons_append, List.nil_append]
      simp [parse_factor, hbeq, h2, h1]
  | Term.Lambda p b, h, rest, fuel, hfuel => by
      simp only [Producible, Bool.and_eq_true] at h
      obtain ⟨hp, hb⟩ := h
      have hsb := size_pos b
      simp only [size] at hfuel
      obtain ⟨f, rfl⟩ : ∃ f, fuel = f + 4 := ⟨fuel - 4, by omega⟩
      have hbody := expr_from_factor b hb
        (fun r fl hfl => parse_factor_renderS b hb r fl hfl)
        (')' :: rest) (f + 1) (by simp [stops]) (by omega)
      have eL : parse_lambda (f + 2) ('λ' :: p :: '.' :: (renderS b ++ ')' :: rest)) =
          Except.ok (Term.Lambda p b, ')' :: rest) := by
        simp [parse_lambda, isLambdaSym, hp, hbody]
      have eE : parse_expr (f + 3) ('λ' :: p :: '.' :: (renderS b ++ ')' :: rest)) =
          Except.ok (Term.Lambda p b, ')' :: rest) := by
        simp [parse_expr, isLambdaSym, eL]
      have hlist : (renderS b ++ [')']) ++ rest = renderS b ++ ')' :: rest := by simp
      simp only [renderS, List.cons_append]
      rw [hlist]
      simp [parse_factor, eE]
  | Term.App f a, h, rest, fuel, hfuel => by
      simp only [Producible, Bool.and_eq_true] at h
      obtain ⟨hf, ha⟩ := h
      have hsf := size_pos f
      have hsa := size_pos a
      simp only [size] at hfuel
      obtain ⟨k, rfl⟩ : ∃ k, fuel = k + 5 := ⟨fuel - 5, by omega⟩
      have hfacf := parse_factor_renderS f hf (renderS a ++ ')' :: rest) (k + 2) (by omega)
      have hfaca := parse_factor_renderS a ha (')' :: rest) (k + 1) (by omega)
      obtain ⟨cf, csf, hrf, hlamf, -⟩ := renderS_head f hf
      obtain ⟨ca, csa, hra, -, hstopa⟩ := renderS_head a ha
      have e1 : parse_app_loop (k + 1) (Term.App f a) (')' :: rest) =
          Except.ok (Term.App f a, ')' :: rest) :=
        parse_app_loop_stops k (Term.App f a) (')' :: rest) (by simp [stops])
      have e2 : parse_app_loop (k + 2) f (renderS a ++ ')' :: rest) =
          Except.ok (Term.App f a, ')' :: rest) := by
        have hla : renderS a ++ ')' :: rest = ca :: (csa ++ ')' :: rest) := by
          rw [hra]; rfl
        rw [hla]
        simp only [parse_app_loop, hstopa, Bool.false_eq_true, if_false]
        rw [← hla, hfaca]
        exact e1
      have e3 : parse_app (k + 3) (renderS f ++ (renderS a ++ ')' :: rest)) =
          Except.ok (Term.App f a, ')' :: rest) := by
        simp only [parse_app]
        rw [hfacf]
        exact e2
      have e4 : parse_expr (k + 4) (renderS f ++ (renderS a ++ ')' :: rest)) =
          Except.ok (Term.App f a, ')' :: rest) := by
        have hlf : renderS f ++ (renderS a ++ ')' :: rest) =
            cf :: (csf ++ (renderS a ++ ')' :: rest)) := by rw [hrf]; rfl
        rw [hlf]
        simp only [parse_expr, hlamf, Bool.false_eq_true, if_false]
        rw [← hlf]
        exact e3
      have hlist : (renderS f ++ (renderS a ++ [')'])) ++ rest =
          renderS f ++ (renderS a ++ ')' :: rest) := by simp
      simp only [renderS, List.cons_append]
      rw [hlist]
      simp only [parse_factor, beq_self_eq_true, if_true]
      rw [e4]
      rfl

/-- Soundness of the parser with respect to `Producible`: every term any
production can return satisfies `Producible`. -/
lemma parse_sound : ∀ fuel : Nat,
    (∀ s t rest, parse_expr fuel s = Except.ok (t, rest) → Producible t = true) ∧
    (∀ s t rest, parse_lambda fuel s = Except.ok (t, rest) → Producible t = true) ∧
    (∀ s t rest, parse_app fuel s = Except.ok (t, rest) → Producible t = true) ∧
    (∀ left s t rest, Producible left = true →
       parse_app_loop fuel left s = Except.ok (t, rest) → Producible t = true) ∧
    (∀ s t rest, parse_factor fuel s = Except.ok (t, rest) → Producible t = true) := by
  intro fuel
  induction fuel with
  | zero =>
      refine ⟨fun s t rest h => ?_, fun s t rest h => ?_, fun s t rest h => ?_,
              fun left s t rest hl h => ?_, fun s t rest h => ?_⟩ <;>
        simp [parse_expr, parse_lambda, parse_app, parse_app_loop, parse_factor] at h
  | succ n ih =>
      obtain ⟨ihE, ihL, ihA, ihLoop, ihF⟩ := ih
      refine ⟨?_, ?_, ?_, ?_, ?_⟩
      · -- parse_expr
        intro s t rest h
        cases s with
        | nil =>
            simp only [parse_expr] at h
            exact ihA _ _ _ h
        | cons c cs =>
            simp only [parse_expr] at h
            by_cases hc : isLambdaSym c = true
            · simp only [hc, if_true] at h
              exact ihL _ _ _ h
            · simp only [hc, if_false] at h
              exact ihA _ _ _ h
      · -- parse_lambda
        intro s t rest h
        cases s with
        | nil => simp [parse_lambda] at h
        | cons c cs =>
            simp only [parse_lambda] at h
            by_cases hc : isLambdaSym c = true
            case neg => simp [hc] at h
            simp only [hc, if_true] at h
            cases cs with
            | nil => simp at h
            | cons v rest2 =>
                by_cases hv : pyIsAlpha v = true
                case neg => simp [hv] at h
                simp only [hv, if_true] at h
                split at h
                · rename_i rest3
                  cases hpe : parse_expr n rest3 with
                  | error e => rw [hpe] at h; simp at h
                  | ok r =>
                      obtain ⟨body, rest4⟩ := r
                      rw [hpe] at h
                      simp only at h
                      injection h with hpair
                      injection hpair with h1 h2
                      rw [← h1]
                      simp [Producible, hv, ihE _ _ _ hpe]
                · simp at h
      · -- parse_app
        intro s t rest h
        simp only [parse_app] at h
        cases hfac : parse_factor n s with
        | error e => rw [hfac] at h; simp at h
        | ok r =>
            obtain ⟨left, s1⟩ := r
            rw [hfac] at h
            simp only at h
            exact ihLoop left s1 t rest (ihF _ _ _ hfac) h
      · -- parse_app_loop
        intro left s t rest hl h
        cases s with
        | nil =>
            simp only [parse_app_loop] at h
            simp at h
            obtain ⟨h1, -⟩ := h
            rw [← h1]; exact hl
        | cons c cs =>
            simp only [parse_app_loop] at h
            by_cases hc : (c == ')' || c == '.') = true
            · simp only [hc, if_true] at h
              simp at h
              obtain ⟨h1, -⟩ := h
              rw [← h1]; exact hl
            · simp only [hc, if_false] at h
              cases hfac : parse_factor n (c :: cs) with
              | error e => rw [hfac] at h; simp at h
              | ok r =>
                  obtain ⟨right, s1⟩ := r
                  rw [hfac] at h
                  simp only at h
                  refine ihLoop (Term.App left right) s1 t rest ?_ h
                  simp [Producible, hl, ihF _ _ _ hfac]
      · -- parse_factor
        intro s t rest h
        cases s with
        | nil => simp [parse_factor] at h
        | cons c cs =>
            simp only [parse_factor] at h
            by_cases h1 : (c == '(') = true
            · simp only [h1, if_true] at h
              cases hpe : parse_expr n cs with
              | error e => rw [hpe] at h; simp at h
              | ok r =>
                  obtain ⟨exp, s1⟩ := r
                  rw [hpe] at h
                  simp only at h
                  split at h
                  · injection h with hpair
                    injection hpair with h1 h2
                    rw [← h1]
                    exact ihE _ _ _ hpe
                  · simp at h
            · simp only [h1, if_false] at h
              by_cases h2 : isLambdaSym c = true
              · simp only [h2, if_true] at h
                exact ihL _ _ _ h
              · simp only [h2, if_false] at h
                by_cases h3 : pyIsAlpha c = true
                · simp only [h3, if_true] at h
                  simp at h
                  obtain ⟨ht, -⟩ := h
                  rw [← ht]
                  simp [Producible, h3, h2]
                · simp [h3] at h

/-- C7: `parse` succeeds only when the top-level expression consumed the
whole space-stripped input exactly; whenever it succeeds as a proper prefix
with characters left over, `parse` fails with the extra characters error and
returns no partial result (e.g. on `"x y)"` after the prefix `xy` parses). -/
theorem C7_whole_input_consumed :
    (∀ (s : String) (t : Term),
       parse s = Except.ok t →
       parse_expr (4 * (stripSpaces s.toList).length + 8) (stripSpaces s.toList) =
         Except.ok (t, [])) ∧
    (∀ (s : String) (t : Term) (c : Char) (rest : List Char),
       parse_expr (4 * (stripSpaces s.toList).length + 8) (stripSpaces s.toList) =
         Except.ok (t, c :: rest) →
       parse s = Except.error "Extra characters after valid expression") ∧
    parse "x y)" = Except.error "Extra characters after valid expression" := by
  refine ⟨fun s t h => parse_ok_parse_expr s t h, ?_, by decide⟩
  intro s t c rest h
  rw [parse_def, h]

theorem C7_witness :
    parse "x y)" = Except.error "Extra characters after valid expression" :=
  C7_whole_input_consumed.2.1 "x y)" (Term.App (Term.Var 'x') (Term.Var 'y')) ')' []
    (by decide)

/-- C8 counterexample: The parser's variable alphabet is not restricted
to ASCII letters: `'é'` is neither `'('`, a lambda marker, nor an ASCII
letter, yet `parse "é"` accepts it as a variable name instead of failing
with the unexpected character error. -/
theorem C8_counterexample :
    parse "é" = Except.ok (Term.Var 'é') ∧ 'é'.isAlpha = false ∧
    'é' ≠ '(' ∧ isLambdaSym 'é' = false :=
  ⟨by decide, by decide, by decide, by decide⟩

/-- C8 amended: Where a factor is expected, a character that is neither
`'('`, a lambda marker, nor alphabetic in the sense of Python's Unicode
`str.isalpha` fails with the unexpected character error, and an alphabetic
one (not `'('`, not a lambda marker) is accepted as a variable name. -/
theorem C8_factor_alphabet :
    (∀ (fuel : Nat) (c : Char) (rest : List Char),
       (c == '(') = false → isLambdaSym c = false → pyIsAlpha c = false →
       parse_factor (fuel+1) (c :: rest) =
         Except.error ("Unexpected character: " ++ String.mk [c])) ∧
    (∀ (fuel : Nat) (c : Char) (rest : List Char),
       (c == '(') = false → isLambdaSym c = false → pyIsAlpha c = true →
       parse_factor (fuel+1) (c :: rest) = Except.ok (Term.Var c, rest)) := by
  constructor <;> intro fuel c rest h1 h2 h3 <;> simp [parse_factor, h1, h2, h3]

theorem C8_witness :
    parse_factor 1 ('?' :: []) = Except.error ("Unexpected character: " ++ String.mk ['?']) ∧
    parse_factor 1 ('a' :: []) = Except.ok (Term.Var 'a', []) :=
  ⟨C8_factor_alphabet.1 0 '?' [] (by decide) (by decide) (by decide),
   C8_factor_alphabet.2 0 'a' [] (by decide) (by decide) (by decide)⟩

/-- C2: Round trip: for every term the parser can itself produce (i.e.
any successful `parse` result), rendering it in the fully parenthesized
surface form and reparsing yields a structurally equal term. -/
theorem C2_parse_render_roundtrip (s : String) (t : Term) (h : parse s = Except.ok t) :
    parse (render t) = Except.ok t := by
  have hok := parse_ok_parse_expr s t h
  have hprod : Producible t = true := (parse_sound _).1 _ _ _ hok
  have hstrip : stripSpaces (renderL t) = renderS t := stripSpaces_renderL t hprod
  have hexpr := expr_from_factor t hprod (parse_factor_renderS t hprod) []
      (4 * (renderS t).length + 8) (by simp [stops]) (by have := size_bound t; omega)
  rw [List.append_nil] at hexpr
  rw [parse_def]
  have htl : (render t).toList = renderL t := rfl
  rw [htl, hstrip, hexpr]

theorem C2_witness : parse (render (Term.Var 'x')) = Except.ok (Term.Var 'x') :=
  C2_parse_render_roundtrip "x" (Term.Var 'x') (by decide)

example : pyIsAlpha 'š' = true := by decide
example : pyIsAlpha 'Ж' = true := by decide
example : pyIsAlpha 'Ā' = true := by decide
example : pyIsAlpha 'é' = true := by decide
example : pyIsAlpha '\t' = false := by decide
example : parse "š" = Except.ok (Term.Var 'š') := by decide
